import Mathlib

/-!
Verification of the pivot-classification and script-synthesis engine of
`src/openbr/core/plot.cpp` against its natural-language specification.

The C++ source is shallowly embedded: `QString`s become `String`s,
`QStringList`s become `List String`, `QSet<QString>` becomes `Finset String`,
the `float` confidence becomes `ℚ` (only its `= 0` / `≠ 0` distinction is ever
used, which coincides for `float` values obtained as `c / 100` with
`c ∈ [0,100]`), and C++ `int` sizes are `Nat`s (they are `QSet::size()`
values, hence non-negative and far from overflow).
-/

namespace br

/-- Splitting a character list on a separator, keeping empty parts; this is the
semantics of `QString::split` (with the default `KeepEmptyParts`) for a
one-character separator, written structurally so that it evaluates in the
kernel.  `[] ↦ [[]]` matches Qt: splitting the empty string yields one empty
part. -/
def splitChar (sep : Char) : List Char → List (List Char)
  | [] => [[]]
  | c :: cs =>
    match splitChar sep cs with
    | [] => [[]]
    | h :: t => if c = sep then [] :: h :: t else (c :: h) :: t

/-- `QString::split` on a one-character separator. -/
def qsplit (sep : Char) (s : String) : List String :=
  (splitChar sep s.data).map fun l => String.mk l

/-- Modelled from the spec: the collaborator `QFileInfo::fileName` — the last
path component of an identifier (path components separated by `/`). -/
def fileName (file : String) : String :=
  (qsplit '/' file).getLastD ("")

/-- Modelled from the spec: the collaborator `QFileInfo(file).dir().dirName()`
("use enclosing directory name" in §4.1) — the next-to-last path component,
`"."` when there is none. -/
def dirName (file : String) : String :=
  let comps := qsplit '/' file
  if 2 ≤ comps.length then comps.getD (comps.length - 2) (".") else "."

/-- Helper for `completeBaseName`: re-join dot-separated name parts. -/
def joinDots : List String → String
  | [] => ""
  | [p] => p
  | p :: ps => p ++ ("." ++ joinDots ps)

/-- Modelled from the spec: the collaborator `QFileInfo::completeBaseName`
("use file base name (extension stripped)" in §4.1) — the file name up to but
excluding the last `.`. -/
def completeBaseName (file : String) : String :=
  let name := fileName file
  let parts := qsplit '.' name
  if parts.length ≤ 1 then name else joinDots parts.dropLast

/-- Embeds `getPivots` (plot.cpp lines 26-32): tokenize the directory name
(`headers = true`) or the complete base name (`headers = false`) of `file` on
the underscore delimiter. -/
def getPivots (file : String) (headers : Bool) : List String :=
  if headers then qsplit '_' (dirName file) else qsplit '_' (completeBaseName file)

/-- Embeds `getScale` (plot.cpp lines 34-40): discrete-scale selection from the
encoded dimension's cardinality `vals`. -/
def getScale (mode title : String) (vals : Int) : String :=
  if vals > 12 then " + scale_" ++ (mode ++ ("_discrete(\"" ++ (title ++ "\")")))
  else if vals > 11 then " + scale_" ++ (mode ++ ("_brewer(\"" ++ (title ++ "\", palette=\"Set3\")")))
  else if vals > 9 then " + scale_" ++ (mode ++ ("_brewer(\"" ++ (title ++ "\", palette=\"Paired\")")))
  else " + scale_" ++ (mode ++ ("_brewer(\"" ++ (title ++ "\", palette=\"Set1\")")))

/-- Lexicographic (code-point-wise) order on character lists, the comparison
underlying `QString::operator<`, written as a structurally recursive `Bool`
function so it evaluates in the kernel.  `leB a b = true` means `a ≤ b`. -/
def leB : List Char → List Char → Bool
  | [], _ => true
  | _ :: _, [] => false
  | a :: as, b :: bs => if a < b then true else if b < a then false else leB as bs

/-- Embeds `sortFiles` (plot.cpp lines 43-46), the comparator given to `qSort`:
plain lexicographic comparison of the identifier strings (here in its
non-strict form; under a total order the sorted arrangement is the same, as
equal strings are indistinguishable). -/
def sortFiles (fileA fileB : String) : Prop := leB fileA.data fileB.data = true

instance : DecidableRel sortFiles := fun a b => instDecidableEqBool (leB a.data b.data) true

/-- `leB` is total. -/
theorem leB_total : ∀ a b : List Char, leB a b = true ∨ leB b a = true
  | [], _ => Or.inl rfl
  | _ :: _, [] => Or.inr rfl
  | a :: as, b :: bs => by
    by_cases hab : a < b
    · left; simp [leB, hab]
    · by_cases hba : b < a
      · right; simp [leB, hba]
      · obtain rfl : a = b := le_antisymm (not_lt.mp hba) (not_lt.mp hab)
        rcases leB_total as bs with h | h
        · left; simp [leB, lt_irrefl, h]
        · right; simp [leB, lt_irrefl, h]

/-- `leB` is transitive. -/
theorem leB_trans : ∀ a b c : List Char,
    leB a b = true → leB b c = true → leB a c = true
  | [], _, _, _, _ => rfl
  | _ :: _, [], _, h1, _ => by simp [leB] at h1
  | _ :: _, _ :: _, [], _, h2 => by simp [leB] at h2
  | a :: as, b :: bs, c :: cs, h1, h2 => by
    simp only [leB] at h1 h2 ⊢
    by_cases hab : a < b
    · by_cases hbc : b < c
      · simp [lt_trans hab hbc]
      · by_cases hcb : c < b
        · simp [hbc, hcb] at h2
        · obtain rfl : b = c := le_antisymm (not_lt.mp hcb) (not_lt.mp hbc)
          simp [hab]
    · by_cases hba : b < a
      · simp [hab, hba] at h1
      · obtain rfl : a = b := le_antisymm (not_lt.mp hba) (not_lt.mp hab)
        simp only [lt_irrefl, if_false] at h1 h2 ⊢
        by_cases hac : a < c
        · simp [hac]
        · by_cases hca : c < a
          · simp [hac, hca] at h2
          · simp [hac, hca] at h1 h2 ⊢
            exact leB_trans as bs cs h1 h2

/-- `leB` is antisymmetric. -/
theorem leB_antisymm : ∀ a b : List Char, leB a b = true → leB b a = true → a = b
  | [], [], _, _ => rfl
  | [], _ :: _, _, h2 => by simp [leB] at h2
  | _ :: _, [], h1, _ => by simp [leB] at h1
  | a :: as, b :: bs, h1, h2 => by
    simp only [leB] at h1 h2
    by_cases hab : a < b
    · simp [hab, lt_asymm hab] at h2
    · by_cases hba : b < a
      · simp [hab, hba] at h1
      · obtain rfl : a = b := le_antisymm (not_lt.mp hba) (not_lt.mp hab)
        simp only [lt_irrefl, if_false] at h1 h2
        rw [leB_antisymm as bs h1 h2]

instance : IsTotal String sortFiles := ⟨fun a b => leB_total a.data b.data⟩

instance : IsTrans String sortFiles := ⟨fun a b c => leB_trans a.data b.data c.data⟩

instance : IsAntisymm String sortFiles :=
  ⟨fun a b h1 h2 => by
    cases a with
    | mk da =>
      cases b with
      | mk db => exact congrArg String.mk (leB_antisymm da db h1 h2)⟩

/-- Embeds the `qSort` call of `RPlot::RPlot` (plot.cpp line 74): sort the
identifiers by the `sortFiles` comparator. -/
def sortFilesList (files : List String) : List String :=
  List.insertionSort sortFiles files

/-- Embeds `RPlot::Pivot` (plot.cpp lines 59-67). -/
structure Pivot where
  index : Int
  size : Nat
  header : String
  smooth : Bool
deriving DecidableEq

/-- The default-constructed `Pivot()` (plot.cpp line 64). -/
def Pivot.init : Pivot := ⟨-1, 0, "", false⟩

/-- Embeds one iteration of the per-dimension loop body
`for (int i=0; i<pivots.size(); i++) pivotItems[i].insert(pivots[i])`
(plot.cpp lines 104-107): insert the i-th label into the i-th accumulated
label set, for every index where both exist (the source loop runs for
`i < pivots.size()`, and `pivots.size() ≤ pivotItems.size()` in every
reachable state). -/
def updateItems : List (Finset String) → List String → List (Finset String)
  | [], _ => []
  | s :: ss, [] => s :: ss
  | s :: ss, lab :: labs => insert lab s :: updateItems ss labs

/-- Embeds the body of the `foreach (fileName, files)` loop of `RPlot::RPlot`
(plot.cpp lines 94-109), restricted to its pivot state (the emitted `read.csv`
statements do not feed back into classification): tokenize the file's base
name; on a token-count mismatch with the current header list abandon the
naming convention (`pivotHeaders := ["File"]`, the file's label is its base
name); then accumulate the labels into `pivotItems`. -/
def pivotStep (acc : List String × List (Finset String)) (fileN : String) :
    List String × List (Finset String) :=
  if (getPivots fileN false).length ≠ acc.1.length then
    (["File"], updateItems acc.2 [completeBaseName fileN])
  else
    (acc.1, updateItems acc.2 (getPivots fileN false))

/-- Embeds plot.cpp lines 92-109: headers from the first (sorted) file's
directory name, `pivotItems` initialized to one empty set per header, then the
per-file loop. -/
def buildPivots (sorted : List String) : List String × List (Finset String) :=
  let pivotHeaders0 := getPivots (sorted.headD ("")) true
  sorted.foldl pivotStep (pivotHeaders0, List.replicate pivotHeaders0.length ∅)

/-- Embeds one iteration of the major/minor selection loop (plot.cpp lines
111-119).  The accumulator is `(major, minor, oob)` where `oob` records
whether an executed branch read `pivotHeaders[i]` with `i` out of bounds (the
source's `QStringList::operator[]` has no defined value there; the embedding
reads `getD i ""` and raises the flag). -/
def scanStep (headers : List String) (acc : Pivot × Pivot × Bool)
    (p : Nat × Finset String) : Pivot × Pivot × Bool :=
  let size := p.2.card
  if size > acc.1.size then
    (⟨(p.1 : Int), size, headers.getD p.1 (""), false⟩, acc.1,
      acc.2.2 || decide (headers.length ≤ p.1))
  else if size > acc.2.1.size then
    (acc.1, ⟨(p.1 : Int), size, headers.getD p.1 (""), false⟩,
      acc.2.2 || decide (headers.length ≤ p.1))
  else acc

/-- Embeds the major/minor selection loop of `RPlot::RPlot` (plot.cpp lines
111-119): scan the accumulated label sets in dimension-index order. -/
def scanPivots (headers : List String) (items : List (Finset String)) :
    Pivot × Pivot × Bool :=
  items.enum.foldl (scanStep headers) (Pivot.init, Pivot.init, false)

/-- Embeds the smoothing override (plot.cpp lines 121-125) for one pivot:
`p.smooth = !smooth.isEmpty() && p.header == smooth && p.size > 1`, and a
smoothed pivot's size collapses to 1. -/
def applySmooth (smooth : String) (p : Pivot) : Pivot :=
  if smooth ≠ ("") ∧ p.header = smooth ∧ 1 < p.size then
    { p with smooth := true, size := 1 }
  else
    { p with smooth := false }

/-- Embeds the `ncol` derivation (plot.cpp line 130):
`destination.get<int>("ncol", major.size > 1 ? major.size : (minor.header.isEmpty() ? major.size : minor.size))`. -/
def ncolOf (ncolOpt : Option Int) (major minor : Pivot) : Int :=
  ncolOpt.getD
    (if 1 < major.size then (major.size : Int)
     else if minor.header = ("") then (major.size : Int)
     else (minor.size : Int))

/-- Embeds the swap step (plot.cpp lines 126-127): after smoothing, if the
major cardinality fell below the minor one, exchange the two pivots. -/
def swapPivots (a b : Pivot) : Pivot × Pivot :=
  if a.size < b.size then (b, a) else (a, b)

/-- The classification state of `struct RPlot` (plot.cpp lines 48-69), minus
the output-file handle and destination strings, which do not feed back into
classification.  `headerOOB` records whether the selection loop read
`pivotHeaders[i]` out of bounds. -/
structure RPlot where
  pivotHeaders : List String
  pivotItems : List (Finset String)
  major : Pivot
  minor : Pivot
  confidence : ℚ
  ncol : Int
  flip : Bool
  headerOOB : Bool
deriving DecidableEq

/-- Embeds the body of the constructor `RPlot::RPlot` (plot.cpp lines 71-131)
applied to an already-sorted file list: build the pivot state, select
major/minor, apply smoothing, swap so the larger cardinality is major, and
derive `confidence`, `ncol` and `flip`.  `confidenceOpt`/`ncolOpt`/`smooth`
are the caller-supplied destination options (`none`/`""` = absent, matching
the source's `get` defaults 95, derived expression, `""`). -/
def classifySorted (sorted : List String) (smooth : String)
    (confidenceOpt : Option ℚ) (ncolOpt : Option Int) : RPlot :=
  let hi := buildPivots sorted
  let scan := scanPivots hi.1 hi.2
  let swapped := swapPivots (applySmooth smooth scan.1) (applySmooth smooth scan.2.1)
  { pivotHeaders := hi.1
    pivotItems := hi.2
    major := swapped.1
    minor := swapped.2
    confidence := (confidenceOpt.getD 95) / 100
    ncol := ncolOf ncolOpt swapped.1 swapped.2
    flip := swapped.2.header == "Algorithm"
    headerOOB := scan.2.2 }

/-- Embeds `RPlot::RPlot` (plot.cpp line 74 + 92-131): sort the identifiers
lexicographically, then classify. -/
def classify (files : List String) (smooth : String)
    (confidenceOpt : Option ℚ) (ncolOpt : Option Int) : RPlot :=
  classifySorted (sortFilesList files) smooth confidenceOpt ncolOpt

/-- Modelled from the spec: the `ChartOptions` record (§3), the resolved
per-chart option set read by `RPlot::qplot` through the collaborator
`br::File`'s `get`/`contains`/`getBool` accessors (not under src/).  A missing
optional entry is `none`; `getBool` of a missing entry is `false`; `textSize`
defaults to 12. -/
structure ChartOptions where
  title : String := ""
  size : Option String := none
  xTitle : String := ""
  yTitle : String := ""
  xLog : Bool := false
  yLog : Bool := false
  xLabels : Option String := none
  xBreaks : Option String := none
  yLabels : Option String := none
  yBreaks : Option String := none
  xLimits : Option (ℚ × ℚ) := none
  yLimits : Option (ℚ × ℚ) := none
  textSize : ℚ := 12
  legendPosition : Option (ℚ × ℚ) := none
deriving DecidableEq

/-- Modelled from the spec: `QtUtils::toString(QPointF)` (not under src/),
rendering a 2-tuple option value as `(x,y)`. -/
def pointStr (q : ℚ × ℚ) : String :=
  "(" ++ (toString q.1 ++ ("," ++ (toString q.2 ++ ")")))

/-- Fragment 1 of the `qplot` statement (plot.cpp line 145): base geometry
mapping (`1-Y` when flipped) and title. -/
def qplotBase (flipY : Bool) (data geom title : String) : String :=
  "qplot(X, " ++ ((if flipY then ("1-Y") else ("Y")) ++
    (", data=" ++ (data ++ (", geom=\"" ++ (geom ++ ("\", main=\"" ++ (title ++ "\"")))))))

/-- Fragment 2 (plot.cpp line 146): optional point-size override. -/
def sizePart (opts : ChartOptions) : String :=
  match opts.size with
  | some s => ", size=I(" ++ (s ++ ")")
  | none => ""

/-- Fragment 3 (plot.cpp line 147): color encoding bound to the major header
iff the major cardinality exceeds 1. -/
def colourPart (st : RPlot) : String :=
  if 1 < st.major.size then ", colour=factor(" ++ (st.major.header ++ ")") else ""

/-- Fragment 4 (plot.cpp line 148): line-style encoding bound to the minor
header iff the minor cardinality exceeds 1. -/
def linetypePart (st : RPlot) : String :=
  if 1 < st.minor.size then ", linetype=factor(" ++ (st.minor.header ++ ")") else ""

/-- Fragment 5 (plot.cpp line 149): axis labels and base theme. -/
def labPart (opts : ChartOptions) : String :=
  ", xlab=\"" ++ (opts.xTitle ++ ("\", ylab=\"" ++ (opts.yTitle ++ "\") + theme_minimal()")))

/-- The error-bar emission condition of plot.cpp line 150:
`(major.smooth || minor.smooth) && confidence != 0 && data != "CMC"`. -/
def errBarCond (st : RPlot) (data : String) : Bool :=
  (st.major.smooth || st.minor.smooth) && (!(st.confidence == 0) && !(data == ("CMC")))

/-- Fragment 6 (plot.cpp line 150): the error-bar overlay, emitted under
`errBarCond`. -/
def errBarPart (st : RPlot) (data : String) (flipY : Bool) : String :=
  if errBarCond st data then
    " + geom_errorbar(data=" ++ (data ++ ("[seq(1, NROW(" ++ (data ++
      ("), by = 29),], aes(x=X, ymin=" ++
       ((if flipY then ("(1-lower), ymax=(1-upper)") else ("lower, ymax=upper")) ++
        "), width=0.1, alpha=I(1/2))")))))
  else ""

/-- Fragment 7 (plot.cpp line 151): discrete color scale iff major is
multi-valued. -/
def colourScalePart (st : RPlot) : String :=
  if 1 < st.major.size then getScale ("colour") st.major.header (st.major.size : Int) else ""

/-- Fragment 8 (plot.cpp line 152): discrete line-style scale iff minor is
multi-valued. -/
def linetypeScalePart (st : RPlot) : String :=
  if 1 < st.minor.size then " + scale_linetype_discrete(\"" ++ (st.minor.header ++ "\")") else ""

/-- Fragment 9 (plot.cpp lines 153-154): X-axis scale, logarithmic or
continuous. -/
def xScalePart (opts : ChartOptions) : String :=
  if opts.xLog then
    " + scale_x_log10(labels=" ++ ((opts.xLabels.getD ("trans_format(\"log10\", math_format())")) ++
      (", breaks=" ++ ((opts.xBreaks.getD ("waiver()")) ++ ") + annotation_logticks(sides=\"b\")")))
  else
    " + scale_x_continuous(labels=" ++ ((opts.xLabels.getD ("percent")) ++
      (", breaks=" ++ ((opts.xBreaks.getD ("pretty_breaks(n=10)")) ++ ")")))

/-- Fragment 10 (plot.cpp lines 155-156): Y-axis scale, mirroring fragment 9. -/
def yScalePart (opts : ChartOptions) : String :=
  if opts.yLog then
    " + scale_y_log10(labels=" ++ ((opts.yLabels.getD ("trans_format(\"log10\", math_format())")) ++
      (", breaks=" ++ ((opts.yBreaks.getD ("waiver()")) ++ ") + annotation_logticks(sides=\"l\")")))
  else
    " + scale_y_continuous(labels=" ++ ((opts.yLabels.getD ("percent")) ++
      (", breaks=" ++ ((opts.yBreaks.getD ("pretty_breaks(n=10)")) ++ ")")))

/-- Fragment 11 (plot.cpp line 157): optional explicit X limits. -/
def xLimitsPart (opts : ChartOptions) : String :=
  match opts.xLimits with
  | some q => " + xlim" ++ pointStr q
  | none => ""

/-- Fragment 12 (plot.cpp line 158): optional explicit Y limits. -/
def yLimitsPart (opts : ChartOptions) : String :=
  match opts.yLimits with
  | some q => " + ylim" ++ pointStr q
  | none => ""

/-- Fragment 13 (plot.cpp line 159): text-size themed block. -/
def themePart (opts : ChartOptions) : String :=
  " + theme(legend.title = element_text(size = " ++ (toString opts.textSize ++
    ("), legend.text = element_text(size = " ++ (toString opts.textSize ++
    ("), plot.title = element_text(size = " ++ (toString opts.textSize ++
    ("), axis.text = element_text(size = " ++ (toString opts.textSize ++
    ("), axis.title.x = element_text(size = " ++ (toString opts.textSize ++
    ("), axis.title.y = element_text(size = " ++ (toString opts.textSize ++ "),")))))))))))

/-- Fragment 14 (plot.cpp line 160): legend position and grid styling. -/
def legendPart (opts : ChartOptions) : String :=
  " legend.position=" ++
    ((match opts.legendPosition with
      | some q => "c" ++ pointStr q
      | none => "\x27bottom\x27") ++
     ", legend.background = element_rect(fill = \x27white\x27), panel.grid.major = element_line(colour = \"gray\"), panel.grid.minor = element_line(colour = \"gray\", linetype = \"dashed\"))")

/-- Fragment 15 (plot.cpp line 161): legend column count. -/
def guidesPart (st : RPlot) : String :=
  " + guides(col=guide_legend(ncol=" ++ (toString st.ncol ++ "))\n\n")

/-- Embeds `RPlot::qplot` (plot.cpp lines 143-162) as the ordered list of the
fifteen `+`-concatenated fragments of the single chart-declaration statement
it writes; absent optional fragments are the empty string, exactly as in the
source's `cond ? text : QString()` pattern. -/
def RPlot.qplotParts (st : RPlot) (geom data : String) (flipY : Bool)
    (opts : ChartOptions) : List String :=
  [qplotBase flipY data geom opts.title,
   sizePart opts,
   colourPart st,
   linetypePart st,
   labPart opts,
   errBarPart st data flipY,
   colourScalePart st,
   linetypeScalePart st,
   xScalePart opts,
   yScalePart opts,
   xLimitsPart opts,
   yLimitsPart opts,
   themePart opts,
   legendPart opts,
   guidesPart st]

/-- The full chart-declaration statement written by `RPlot::qplot`: the
concatenation of its fifteen fragments. -/
def RPlot.qplotStmt (st : RPlot) (geom data : String) (flipY : Bool)
    (opts : ChartOptions) : String :=
  String.join (RPlot.qplotParts st geom data flipY opts)

/-- Boolean prefix test on character lists (used to recognise which fragment
of a chart declaration is the error-bar overlay). -/
def listPrefixOf : List Char → List Char → Bool
  | [], _ => true
  | _ :: _, [] => false
  | a :: as, b :: bs => a = b && listPrefixOf as bs

/-- The literal text that opens the error-bar overlay and no other fragment. -/
def errBarTag : String := " + geom_errorbar("

/-- A fragment is the error-bar overlay iff it starts with `errBarTag`. -/
def partHasErrBar (p : String) : Bool := listPrefixOf errBarTag.data p.data

/-- Modelled from the spec: `QtUtils::parse(option, '=')` (not under src/),
splitting an option-override entry on the `=` delimiter. -/
def parseOption (entry : String) : List String := qsplit '=' entry

/-- Outcome of applying one caller override entry in the option loop. -/
inductive OverrideOutcome where
  | fatalArity (entry : String)
  | indexOutOfBounds (key : String)
  | ok (key value : String)
deriving DecidableEq

/-- Embeds the override loop body of `Plot` (plot.cpp lines 211-215):
`words = QtUtils::parse(option, '='); QtUtils::checkArgsSize(words[0], words, 1, 2);
optMap[key].set(words[0], words[1]);`.  `checkArgsSize` is modelled from the
spec (not under src/): fatal unless the token count is 1 or 2.  When the entry
passes validation with arity 1, the source then reads `words[1]`, which does
not exist; the embedding reports this as `indexOutOfBounds`. -/
def applyOverride (entry : String) : OverrideOutcome :=
  let words := parseOption entry
  if words.length < 1 ∨ 2 < words.length then .fatalArity entry
  else
    match words.get? 1 with
    | some v => .ok (words.headD ("")) v
    | none => .indexOutOfBounds (words.headD (""))

/-! ## Theorems -/

/-- String concatenation concatenates the underlying character lists. -/
theorem strData_append (a b : String) : (a ++ b).data = a.data ++ b.data := rfl

/-- A prefix of `a` is a prefix of `a ++ b`. -/
theorem listPrefixOf_append_left (t a b : List Char) (h : listPrefixOf t a = true) :
    listPrefixOf t (a ++ b) = true := by
  induction t generalizing a with
  | nil => rfl
  | cons x xs ih =>
    cases a with
    | nil => simp [listPrefixOf] at h
    | cons y ys =>
      simp only [listPrefixOf, List.cons_append, Bool.and_eq_true, decide_eq_true_eq] at h ⊢
      exact ⟨h.1, ih ys h.2⟩

/-- A prefix of `a ++ b` is a prefix of `a`, unless `a` is itself a prefix of
it. -/
theorem listPrefixOf_append_cases (t a b : List Char)
    (h : listPrefixOf t (a ++ b) = true) :
    listPrefixOf t a = true ∨ listPrefixOf a t = true := by
  induction a generalizing t with
  | nil => right; rfl
  | cons y ys ih =>
    cases t with
    | nil => left; rfl
    | cons x xs =>
      simp only [listPrefixOf, List.cons_append, Bool.and_eq_true, decide_eq_true_eq] at h ⊢
      rcases ih xs h.2 with h1 | h1
      · exact Or.inl ⟨h.1, h1⟩
      · exact Or.inr ⟨h.1.symm, h1⟩

/-- A fragment whose literal head is incomparable with the error-bar tag is
not the error-bar overlay, whatever follows the head. -/
theorem partHasErrBar_head_append (h rest : String)
    (h1 : listPrefixOf errBarTag.data h.data = false)
    (h2 : listPrefixOf h.data errBarTag.data = false) :
    partHasErrBar (h ++ rest) = false := by
  unfold partHasErrBar
  rw [strData_append]
  cases hc : listPrefixOf errBarTag.data (h.data ++ rest.data) with
  | false => rfl
  | true =>
    rcases listPrefixOf_append_cases _ _ _ hc with h3 | h3
    · rw [h1] at h3; cases h3
    · rw [h2] at h3; cases h3

/-- Fragment 1 is never the error-bar overlay. -/
theorem qplotBase_no_errBar (flipY : Bool) (data geom title : String) :
    partHasErrBar (qplotBase flipY data geom title) = false :=
  partHasErrBar_head_append ("qplot(X, ") _ (by decide) (by decide)

/-- Fragment 2 is never the error-bar overlay. -/
theorem sizePart_no_errBar (opts : ChartOptions) :
    partHasErrBar (sizePart opts) = false := by
  unfold sizePart
  cases hs : opts.size with
  | none => decide
  | some s => exact partHasErrBar_head_append (", size=I(") _ (by decide) (by decide)

/-- Fragment 3 is never the error-bar overlay. -/
theorem colourPart_no_errBar (st : RPlot) :
    partHasErrBar (colourPart st) = false := by
  unfold colourPart
  split
  · exact partHasErrBar_head_append (", colour=factor(") _ (by decide) (by decide)
  · decide

/-- Fragment 4 is never the error-bar overlay. -/
theorem linetypePart_no_errBar (st : RPlot) :
    partHasErrBar (linetypePart st) = false := by
  unfold linetypePart
  split
  · exact partHasErrBar_head_append (", linetype=factor(") _ (by decide) (by decide)
  · decide

/-- Fragment 5 is never the error-bar overlay. -/
theorem labPart_no_errBar (opts : ChartOptions) :
    partHasErrBar (labPart opts) = false :=
  partHasErrBar_head_append (", xlab=\"") _ (by decide) (by decide)

/-- Fragment 6 is the error-bar overlay exactly under `errBarCond`. -/
theorem errBarPart_hasErrBar (st : RPlot) (data : String) (flipY : Bool) :
    partHasErrBar (errBarPart st data flipY) = errBarCond st data := by
  unfold errBarPart
  split
  case isTrue h =>
    rw [h]
    unfold partHasErrBar
    rw [strData_append]
    exact listPrefixOf_append_left _ _ _ (by decide)
  case isFalse h =>
    rw [Bool.eq_false_iff.mpr h]
    decide

/-- Fragment 7 is never the error-bar overlay. -/
theorem colourScalePart_no_errBar (st : RPlot) :
    partHasErrBar (colourScalePart st) = false := by
  unfold colourScalePart
  split
  · unfold getScale
    split_ifs <;> exact partHasErrBar_head_append (" + scale_") _ (by decide) (by decide)
  · decide

/-- Fragment 8 is never the error-bar overlay. -/
theorem linetypeScalePart_no_errBar (st : RPlot) :
    partHasErrBar (linetypeScalePart st) = false := by
  unfold linetypeScalePart
  split
  · exact partHasErrBar_head_append (" + scale_linetype_discrete(\"") _ (by decide) (by decide)
  · decide

/-- Fragment 9 is never the error-bar overlay. -/
theorem xScalePart_no_errBar (opts : ChartOptions) :
    partHasErrBar (xScalePart opts) = false := by
  unfold xScalePart
  split
  · exact partHasErrBar_head_append (" + scale_x_log10(labels=") _ (by decide) (by decide)
  · exact partHasErrBar_head_append (" + scale_x_continuous(labels=") _ (by decide) (by decide)

/-- Fragment 10 is never the error-bar overlay. -/
theorem yScalePart_no_errBar (opts : ChartOptions) :
    partHasErrBar (yScalePart opts) = false := by
  unfold yScalePart
  split
  · exact partHasErrBar_head_append (" + scale_y_log10(labels=") _ (by decide) (by decide)
  · exact partHasErrBar_head_append (" + scale_y_continuous(labels=") _ (by decide) (by decide)

/-- Fragment 11 is never the error-bar overlay. -/
theorem xLimitsPart_no_errBar (opts : ChartOptions) :
    partHasErrBar (xLimitsPart opts) = false := by
  unfold xLimitsPart
  cases hs : opts.xLimits with
  | none => decide
  | some q => exact partHasErrBar_head_append (" + xlim") _ (by decide) (by decide)

/-- Fragment 12 is never the error-bar overlay. -/
theorem yLimitsPart_no_errBar (opts : ChartOptions) :
    partHasErrBar (yLimitsPart opts) = false := by
  unfold yLimitsPart
  cases hs : opts.yLimits with
  | none => decide
  | some q => exact partHasErrBar_head_append (" + ylim") _ (by decide) (by decide)

/-- Fragment 13 is never the error-bar overlay. -/
theorem themePart_no_errBar (opts : ChartOptions) :
    partHasErrBar (themePart opts) = false :=
  partHasErrBar_head_append (" + theme(legend.title = element_text(size = ") _
    (by decide) (by decide)

/-- Fragment 14 is never the error-bar overlay. -/
theorem legendPart_no_errBar (opts : ChartOptions) :
    partHasErrBar (legendPart opts) = false :=
  partHasErrBar_head_append (" legend.position=") _ (by decide) (by decide)

/-- Fragment 15 is never the error-bar overlay. -/
theorem guidesPart_no_errBar (st : RPlot) :
    partHasErrBar (guidesPart st) = false :=
  partHasErrBar_head_append (" + guides(col=guide_legend(ncol=") _ (by decide) (by decide)

/-- C3: a chart declaration synthesized by `qplot` contains the error-bar
overlay fragment iff (major is smoothed or minor is smoothed) and the
confidence is not 0 and the source relation is not the rank-retrieval curve
CMC; in particular with confidence 0 no declaration carries an error-bar
overlay. -/
theorem qplot_errorbar_iff (st : RPlot) (geom data : String) (flipY : Bool)
    (opts : ChartOptions) :
    ((RPlot.qplotParts st geom data flipY opts).any partHasErrBar = true) ↔
      ((st.major.smooth = true ∨ st.minor.smooth = true) ∧
        st.confidence ≠ 0 ∧ data ≠ ("CMC")) := by
  unfold RPlot.qplotParts
  simp only [List.any_cons, List.any_nil,
    qplotBase_no_errBar, sizePart_no_errBar, colourPart_no_errBar, linetypePart_no_errBar,
    labPart_no_errBar, errBarPart_hasErrBar, colourScalePart_no_errBar,
    linetypeScalePart_no_errBar, xScalePart_no_errBar, yScalePart_no_errBar,
    xLimitsPart_no_errBar, yLimitsPart_no_errBar, themePart_no_errBar,
    legendPart_no_errBar, guidesPart_no_errBar,
    Bool.or_false, Bool.false_or]
  unfold errBarCond
  simp [ne_eq, Bool.and_eq_true, Bool.or_eq_true, and_assoc]

/-- Helper: the swap step unconditionally establishes
`major.size ≥ minor.size`. -/
theorem swapPivots_ge (a b : Pivot) :
    (swapPivots a b).2.size ≤ (swapPivots a b).1.size := by
  unfold swapPivots
  split <;> dsimp only <;> omega

/-- C2: after classification (top-two selection, smoothing collapse, final
swap), `major.cardinality ≥ minor.cardinality` holds for every non-empty
input set. -/
theorem major_ge_minor_after_classification (files : List String) (smooth : String)
    (copt : Option ℚ) (nopt : Option Int) (hne : files ≠ []) :
    (classify files smooth copt nopt).minor.size ≤
      (classify files smooth copt nopt).major.size := by
  unfold classify classifySorted
  exact swapPivots_ge _ _

/-- Witness for `major_ge_minor_after_classification` at a concrete input. -/
theorem major_ge_minor_after_classification_witness :
    (classify [("Alg_Split/a_1.csv"), ("Alg_Split/a_2.csv")] ("Split") none none).minor.size ≤
      (classify [("Alg_Split/a_1.csv"), ("Alg_Split/a_2.csv")] ("Split") none none).major.size :=
  major_ge_minor_after_classification
    [("Alg_Split/a_1.csv"), ("Alg_Split/a_2.csv")] ("Split") none none (by decide)

/-- C4: `getScale` selects the palette purely from the encoded dimension's
cardinality `v`: `v > 12` the plain discrete scale, `v = 12` the qualitative
palette Set3, `v ∈ {10, 11}` Paired, and `v ≤ 9` Set1. -/
theorem getScale_palette_table (mode title : String) (v : Int) :
    getScale mode title v =
      (if 12 < v then " + scale_" ++ (mode ++ ("_discrete(\"" ++ (title ++ "\")")))
       else if v = 12 then " + scale_" ++ (mode ++ ("_brewer(\"" ++ (title ++ "\", palette=\"Set3\")")))
       else if 10 ≤ v then " + scale_" ++ (mode ++ ("_brewer(\"" ++ (title ++ "\", palette=\"Paired\")")))
       else " + scale_" ++ (mode ++ ("_brewer(\"" ++ (title ++ "\", palette=\"Set1\")")))) := by
  unfold getScale
  split_ifs <;> first | rfl | omega

/-- Counterexample to C5: at cardinality 12 the code selects the Set3 palette,
not Paired as the claim states. -/
theorem getScale_twelve_counterexample :
    getScale ("colour") ("Algorithm") 12 =
      " + scale_colour_brewer(\"Algorithm\", palette=\"Set3\")" ∧
    getScale ("colour") ("Algorithm") 12 ≠
      " + scale_colour_brewer(\"Algorithm\", palette=\"Paired\")" := by
  constructor
  · rfl
  · decide

/-- C5 (amended): boundary cardinalities select: 9 → Set1, 10 → Paired,
12 → Set3, 13 → plain discrete scale. -/
theorem getScale_boundaries (mode title : String) :
    getScale mode title 9 = " + scale_" ++ (mode ++ ("_brewer(\"" ++ (title ++ "\", palette=\"Set1\")"))) ∧
    getScale mode title 10 = " + scale_" ++ (mode ++ ("_brewer(\"" ++ (title ++ "\", palette=\"Paired\")"))) ∧
    getScale mode title 12 = " + scale_" ++ (mode ++ ("_brewer(\"" ++ (title ++ "\", palette=\"Set3\")"))) ∧
    getScale mode title 13 = " + scale_" ++ (mode ++ ("_discrete(\"" ++ (title ++ "\")"))) := by
  refine ⟨?_, ?_, ?_, ?_⟩ <;> norm_num [getScale]

/-- C6: override entries of arity 2 are applied as key/value; an entry with
two `=` is a fatal arity error naming the entry; but a bare name of arity 1,
although accepted by the arity validation, then makes the source read
`words[1]` past the end of the token list instead of acting as a no-arg
flag. -/
theorem override_arity_outcomes :
    applyOverride ("xLog=true") = OverrideOutcome.ok ("xLog") ("true") ∧
    applyOverride ("a=b=c") = OverrideOutcome.fatalArity ("a=b=c") ∧
    applyOverride ("metadata") = OverrideOutcome.indexOutOfBounds ("metadata") := by
  refine ⟨rfl, rfl, rfl⟩

/-- `updateItems` preserves the arity of the label-set vector. -/
theorem updateItems_length (items : List (Finset String)) (pivots : List String) :
    (updateItems items pivots).length = items.length := by
  induction items generalizing pivots with
  | nil => rfl
  | cons s ss ih =>
    cases pivots with
    | nil => rfl
    | cons lab labs => simp [updateItems, ih]

/-- One file step preserves the arity of the label-set vector. -/
theorem pivotStep_items_length (acc : List String × List (Finset String)) (f : String) :
    ((pivotStep acc f).2).length = acc.2.length := by
  unfold pivotStep
  split <;> simp [updateItems_length]

/-- The whole file loop preserves the arity of the label-set vector. -/
theorem foldl_pivotStep_items_length (l : List String)
    (acc : List String × List (Finset String)) :
    ((l.foldl pivotStep acc).2).length = acc.2.length := by
  induction l generalizing acc with
  | nil => rfl
  | cons f t ih => rw [List.foldl_cons, ih, pivotStep_items_length]

/-- Once the naming convention has been abandoned, the header list stays
`["File"]` for the rest of the batch. -/
theorem foldl_pivotStep_file_absorbing (l : List String) (items : List (Finset String)) :
    (l.foldl pivotStep ([("File")], items)).1 = [("File")] := by
  induction l generalizing items with
  | nil => rfl
  | cons f t ih =>
    rw [List.foldl_cons]
    unfold pivotStep
    split
    · exact ih _
    · exact ih _

/-- If some file's base name tokenizes to a count different from the current
header count, the fallback fires and the final header list is `["File"]`. -/
theorem foldl_pivotStep_fallback (l : List String) (headers : List String)
    (items : List (Finset String))
    (hw : ∃ f ∈ l, (getPivots f false).length ≠ headers.length) :
    (l.foldl pivotStep (headers, items)).1 = [("File")] := by
  induction l generalizing items with
  | nil =>
    rcases hw with ⟨f, hf, _⟩
    cases hf
  | cons g t ih =>
    rw [List.foldl_cons]
    by_cases hg : (getPivots g false).length = headers.length
    · have hstep : pivotStep (headers, items) g =
          (headers, updateItems items (getPivots g false)) := by
        unfold pivotStep
        rw [if_neg (fun hcon => hcon hg)]
      rw [hstep]
      apply ih
      rcases hw with ⟨f, hf, hfm⟩
      rcases List.mem_cons.mp hf with rfl | hft
      · exact absurd hg hfm
      · exact ⟨f, hft, hfm⟩
    · have hstep : pivotStep (headers, items) g =
          ([("File")], updateItems items [completeBaseName g]) := by
        unfold pivotStep
        rw [if_pos hg]
      rw [hstep]
      exact foldl_pivotStep_file_absorbing t _


/-- Labels already accumulated in a label set survive `updateItems`. -/
theorem updateItems_mem (items : List (Finset String)) (pivots : List String)
    (i : ℕ) (x : String) (hx : x ∈ items.getD i ∅) :
    x ∈ (updateItems items pivots).getD i ∅ := by
  induction items generalizing pivots i with
  | nil => simp at hx
  | cons s ss ih =>
    cases pivots with
    | nil => simpa [updateItems] using hx
    | cons lab labs =>
      cases i with
      | zero =>
        simp only [updateItems, List.getD_cons_zero] at hx ⊢
        exact Finset.mem_insert_of_mem hx
      | succ n =>
        simp only [updateItems, List.getD_cons_succ] at hx ⊢
        exact ih labs n hx

/-- Labels already accumulated survive one file step. -/
theorem pivotStep_mem (acc : List String × List (Finset String)) (f : String)
    (i : ℕ) (x : String) (hx : x ∈ acc.2.getD i ∅) :
    x ∈ ((pivotStep acc f).2).getD i ∅ := by
  unfold pivotStep
  split <;> exact updateItems_mem _ _ _ _ hx

/-- Labels already accumulated survive the whole file loop. -/
theorem foldl_pivotStep_mem (l : List String) (acc : List String × List (Finset String))
    (i : ℕ) (x : String) (hx : x ∈ acc.2.getD i ∅) :
    x ∈ ((l.foldl pivotStep acc).2).getD i ∅ := by
  induction l generalizing acc with
  | nil => exact hx
  | cons g t ih =>
    rw [List.foldl_cons]
    exact ih _ (pivotStep_mem _ _ _ _ hx)

/-- `updateItems` inserts the i-th label into the i-th set whenever both
exist. -/
theorem updateItems_getD_mem_self (items : List (Finset String)) (pivots : List String)
    (i : ℕ) (hi : i < items.length) (hip : i < pivots.length) :
    pivots.getD i ("") ∈ (updateItems items pivots).getD i ∅ := by
  induction items generalizing pivots i with
  | nil => simp at hi
  | cons s ss ih =>
    cases pivots with
    | nil => simp at hip
    | cons lab labs =>
      cases i with
      | zero =>
        simp only [updateItems, List.getD_cons_zero]
        exact Finset.mem_insert_self lab s
      | succ n =>
        simp only [updateItems, List.getD_cons_succ]
        exact ih labs n (by simpa using hi) (by simpa using hip)

/-- The out-of-bounds flag of the selection loop, once raised, stays raised. -/
theorem foldl_scanStep_oob (headers : List String) (l : List (ℕ × Finset String))
    (acc : Pivot × Pivot × Bool) (h : acc.2.2 = true) :
    ((l.foldl (scanStep headers) acc).2.2) = true := by
  induction l generalizing acc with
  | nil => exact h
  | cons p t ih =>
    rw [List.foldl_cons]
    apply ih
    simp only [scanStep]
    split_ifs <;> simp [h]

/-- After the first iteration of the selection loop the minor pivot still has
size 0. -/
theorem scanStep_first_minor (headers : List String) (a : Finset String) :
    ((scanStep headers (Pivot.init, Pivot.init, false) (0, a)).2.1).size = 0 := by
  simp only [scanStep]
  split_ifs with h1 <;> rfl

/-- At an index past the end of the header list, a non-empty label set forces
an executed branch (major or minor update), hence an out-of-bounds header
read, provided the minor slot has size 0. -/
theorem scanStep_oob_snd (headers : List String) (acc : Pivot × Pivot × Bool)
    (i : ℕ) (b : Finset String) (hmin : acc.2.1.size = 0) (hb : b.card ≠ 0)
    (hi : headers.length ≤ i) :
    (scanStep headers acc (i, b)).2.2 = true := by
  simp only [scanStep]
  split_ifs with h1 h2
  · simp [decide_eq_true hi]
  · simp [decide_eq_true hi]
  · omega

/-- The selection loop over a label-set vector of arity ≥ 2 with a singleton
header list and a non-empty second set performs an out-of-bounds header
read. -/
theorem scanPivots_oob (headers : List String) (a b : Finset String)
    (r : List (Finset String)) (hlen : headers.length = 1) (hb : b.card ≠ 0) :
    (scanPivots headers (a :: b :: r)).2.2 = true := by
  unfold scanPivots
  rw [show (a :: b :: r).enum = (0, a) :: ((1, b) :: List.enumFrom 2 r) from rfl]
  rw [List.foldl_cons, List.foldl_cons]
  apply foldl_scanStep_oob
  exact scanStep_oob_snd headers _ 1 b (scanStep_first_minor headers a) hb (le_of_eq hlen)

/-- Projection: the headers stored in the classification state are those
produced by the file loop. -/
theorem classifySorted_pivotHeaders (sorted : List String) (smooth : String)
    (copt : Option ℚ) (nopt : Option Int) :
    (classifySorted sorted smooth copt nopt).pivotHeaders = (buildPivots sorted).1 := rfl

/-- Projection: the label-set vector stored in the classification state is the
one produced by the file loop. -/
theorem classifySorted_pivotItems (sorted : List String) (smooth : String)
    (copt : Option ℚ) (nopt : Option Int) :
    (classifySorted sorted smooth copt nopt).pivotItems = (buildPivots sorted).2 := rfl

/-- Projection: the out-of-bounds flag stored in the classification state is
the one raised by the selection loop. -/
theorem classifySorted_headerOOB (sorted : List String) (smooth : String)
    (copt : Option ℚ) (nopt : Option Int) :
    (classifySorted sorted smooth copt nopt).headerOOB =
      (scanPivots (buildPivots sorted).1 (buildPivots sorted).2).2.2 := rfl

/-- In the fallback scenario (first sorted file's base name matches its
directory header count `H ≥ 2`, some file mismatches), the file loop ends with
headers `["File"]`, a label-set vector still of arity `H`, and the first
file's second token still recorded in the second label set. -/
theorem buildPivots_fallback_state (first : String) (rest : List String)
    (hH : 2 ≤ (getPivots first true).length)
    (hfirst : (getPivots first false).length = (getPivots first true).length)
    (hmis : ∃ f ∈ first :: rest,
      (getPivots f false).length ≠ (getPivots first true).length) :
    (buildPivots (first :: rest)).1 = [("File")] ∧
    (buildPivots (first :: rest)).2.length = (getPivots first true).length ∧
    ((getPivots first false).getD 1 ("")) ∈ (buildPivots (first :: rest)).2.getD 1 ∅ := by
  have hstep : pivotStep
      (getPivots first true, List.replicate (getPivots first true).length ∅) first =
      (getPivots first true,
        updateItems (List.replicate (getPivots first true).length ∅)
          (getPivots first false)) := by
    unfold pivotStep
    rw [if_neg (fun hcon => hcon hfirst)]
  have hbuild : buildPivots (first :: rest) =
      rest.foldl pivotStep
        (getPivots first true,
          updateItems (List.replicate (getPivots first true).length ∅)
            (getPivots first false)) := by
    unfold buildPivots
    rw [List.headD_cons, List.foldl_cons, hstep]
  have hwit : ∃ f ∈ rest, (getPivots f false).length ≠ (getPivots first true).length := by
    rcases hmis with ⟨f, hf, hfm⟩
    rcases List.mem_cons.mp hf with rfl | hft
    · exact absurd hfirst hfm
    · exact ⟨f, hft, hfm⟩
  refine ⟨?_, ?_, ?_⟩
  · rw [hbuild]
    exact foldl_pivotStep_fallback rest _ _ hwit
  · rw [hbuild, foldl_pivotStep_items_length, updateItems_length, List.length_replicate]
  · rw [hbuild]
    apply foldl_pivotStep_mem
    exact updateItems_getD_mem_self _ _ 1
      (by rw [List.length_replicate]; omega) (by omega)

/-- C10: if the first (sorted) input matches its directory-derived header
count `H ≥ 2` and a later input's base name tokenizes to a different count,
the fallback shrinks the header list to the single entry `"File"` while the
label-set vector keeps arity `H`, and the subsequent selection loop reads the
header list out of bounds. -/
theorem fallback_header_index_out_of_bounds
    (files : List String) (smooth : String) (copt : Option ℚ) (nopt : Option Int)
    (hne : files ≠ [])
    (hH : 2 ≤ (getPivots ((sortFilesList files).headD ("")) true).length)
    (hfirst : (getPivots ((sortFilesList files).headD ("")) false).length =
      (getPivots ((sortFilesList files).headD ("")) true).length)
    (hmis : ∃ f ∈ sortFilesList files,
      (getPivots f false).length ≠
        (getPivots ((sortFilesList files).headD ("")) true).length) :
    (classify files smooth copt nopt).pivotHeaders = [("File")] ∧
    (classify files smooth copt nopt).headerOOB = true := by
  obtain ⟨first, rest, hs⟩ : ∃ a t, sortFilesList files = a :: t := by
    cases hsn : sortFilesList files with
    | nil =>
      exfalso
      apply hne
      have hlen := (List.perm_insertionSort sortFiles files).length_eq
      rw [show List.insertionSort sortFiles files = sortFilesList files
        from rfl, hsn] at hlen
      exact List.length_eq_zero.mp hlen.symm
    | cons a t => exact ⟨a, t, rfl⟩
  rw [hs, List.headD_cons] at hH hfirst hmis
  have hfb := buildPivots_fallback_state first rest hH hfirst hmis
  unfold classify
  rw [hs]
  constructor
  · rw [classifySorted_pivotHeaders]
    exact hfb.1
  · rw [classifySorted_headerOOB]
    obtain ⟨i0, i1, ir, hitems⟩ : ∃ x y t, (buildPivots (first :: rest)).2 = x :: y :: t := by
      have hlen := hfb.2.1
      cases hil : (buildPivots (first :: rest)).2 with
      | nil =>
        rw [hil] at hlen
        simp only [List.length_nil] at hlen
        omega
      | cons x t =>
        cases t with
        | nil =>
          rw [hil] at hlen
          simp only [List.length_cons, List.length_nil] at hlen
          omega
        | cons y tt => exact ⟨x, y, tt, rfl⟩
    have hmem := hfb.2.2
    rw [hitems] at hmem
    simp only [List.getD_cons_succ, List.getD_cons_zero] at hmem
    rw [hfb.1, hitems]
    exact scanPivots_oob _ i0 i1 ir rfl (Finset.card_ne_zero_of_mem hmem)

/-- Witness for `fallback_header_index_out_of_bounds` at a concrete input. -/
theorem fallback_header_index_out_of_bounds_witness :
    (classify [("Alg_Split/a_1.csv"), ("Alg_Split/a_2.csv"), ("Alg_Split/b.csv")]
      ("") none none).pivotHeaders = [("File")] ∧
    (classify [("Alg_Split/a_1.csv"), ("Alg_Split/a_2.csv"), ("Alg_Split/b.csv")]
      ("") none none).headerOOB = true :=
  fallback_header_index_out_of_bounds
    [("Alg_Split/a_1.csv"), ("Alg_Split/a_2.csv"), ("Alg_Split/b.csv")]
    ("") none none (by decide) (by decide) (by decide) (by decide)

/-- Counterexample to C1: on a batch whose third file breaks the naming
convention, the header list does become `["File"]`, but classification is not
single-dimension for the whole batch: the minor pivot is dimension 1 with
cardinality 2, and the first dimension's label set holds the earlier files'
first tokens `{a, b}`, not the files' base names `{a_1, a_2, b}`. -/
theorem fallback_not_single_dimension_counterexample :
    (classify [("Alg_Split/a_1.csv"), ("Alg_Split/a_2.csv"), ("Alg_Split/b.csv")]
      ("") none none).pivotHeaders = [("File")] ∧
    (classify [("Alg_Split/a_1.csv"), ("Alg_Split/a_2.csv"), ("Alg_Split/b.csv")]
      ("") none none).minor.size = 2 ∧
    (classify [("Alg_Split/a_1.csv"), ("Alg_Split/a_2.csv"), ("Alg_Split/b.csv")]
      ("") none none).minor.index = 1 ∧
    (classify [("Alg_Split/a_1.csv"), ("Alg_Split/a_2.csv"), ("Alg_Split/b.csv")]
      ("") none none).pivotItems.getD 0 ∅ = {("a"), ("b")} ∧
    (classify [("Alg_Split/a_1.csv"), ("Alg_Split/a_2.csv"), ("Alg_Split/b.csv")]
      ("") none none).pivotItems.getD 0 ∅ ≠ {("a_1"), ("a_2"), ("b")} := by
  refine ⟨?_, ?_, ?_, ?_, ?_⟩ <;> decide

/-- C1 (amended): the first token-count mismatch discards the header list and
replaces it by the single header `"File"` (and from that file on labels are
recorded under it), but the per-dimension label sets accumulated before the
mismatch are retained — the label-set vector keeps its original arity `H` and
the first file's tokens stay in it — so the batch is not degraded to
single-dimension classification when `H ≥ 2`. -/
theorem fallback_retains_prior_label_sets
    (files : List String) (smooth : String) (copt : Option ℚ) (nopt : Option Int)
    (hne : files ≠ [])
    (hH : 2 ≤ (getPivots ((sortFilesList files).headD ("")) true).length)
    (hfirst : (getPivots ((sortFilesList files).headD ("")) false).length =
      (getPivots ((sortFilesList files).headD ("")) true).length)
    (hmis : ∃ f ∈ sortFilesList files,
      (getPivots f false).length ≠
        (getPivots ((sortFilesList files).headD ("")) true).length) :
    (classify files smooth copt nopt).pivotHeaders = [("File")] ∧
    (classify files smooth copt nopt).pivotItems.length =
      (getPivots ((sortFilesList files).headD ("")) true).length ∧
    ((getPivots ((sortFilesList files).headD ("")) false).getD 1 ("")) ∈
      (classify files smooth copt nopt).pivotItems.getD 1 ∅ := by
  obtain ⟨first, rest, hs⟩ : ∃ a t, sortFilesList files = a :: t := by
    cases hsn : sortFilesList files with
    | nil =>
      exfalso
      apply hne
      have hlen := (List.perm_insertionSort sortFiles files).length_eq
      rw [show List.insertionSort sortFiles files = sortFilesList files
        from rfl, hsn] at hlen
      exact List.length_eq_zero.mp hlen.symm
    | cons a t => exact ⟨a, t, rfl⟩
  rw [hs, List.headD_cons] at hH hfirst hmis ⊢
  have hfb := buildPivots_fallback_state first rest hH hfirst hmis
  unfold classify
  rw [hs]
  rw [classifySorted_pivotHeaders, classifySorted_pivotItems]
  exact hfb

/-- Witness for `fallback_retains_prior_label_sets` at a concrete input. -/
theorem fallback_retains_prior_label_sets_witness :
    (classify [("Alg_Split/a_1.csv"), ("Alg_Split/a_2.csv"), ("Alg_Split/b.csv")]
      ("") none none).pivotHeaders = [("File")] ∧
    (classify [("Alg_Split/a_1.csv"), ("Alg_Split/a_2.csv"), ("Alg_Split/b.csv")]
      ("") none none).pivotItems.length =
      (getPivots ((sortFilesList
        [("Alg_Split/a_1.csv"), ("Alg_Split/a_2.csv"), ("Alg_Split/b.csv")]).headD (""))
        true).length ∧
    ((getPivots ((sortFilesList
        [("Alg_Split/a_1.csv"), ("Alg_Split/a_2.csv"), ("Alg_Split/b.csv")]).headD (""))
        false).getD 1 ("")) ∈
      (classify [("Alg_Split/a_1.csv"), ("Alg_Split/a_2.csv"), ("Alg_Split/b.csv")]
        ("") none none).pivotItems.getD 1 ∅ :=
  fallback_retains_prior_label_sets
    [("Alg_Split/a_1.csv"), ("Alg_Split/a_2.csv"), ("Alg_Split/b.csv")]
    ("") none none (by decide) (by decide) (by decide) (by decide)

/-- Counterexample to C7: in scenario B (two files, token-count mismatch on
the second), the classifier does fall back to the single `File` dimension, but
a color encoding bound to `File` IS added to the chart declarations (the
`File` dimension has cardinality 2), contradicting the claim that none is. -/
theorem fallback_colour_encoding_counterexample :
    (classify [("d/a.csv"), ("d/b_c.csv")] ("") none none).pivotHeaders = [("File")] ∧
    colourPart (classify [("d/a.csv"), ("d/b_c.csv")] ("") none none) =
      (", colour=factor(File)") ∧
    (", colour=factor(File)") ∈
      RPlot.qplotParts (classify [("d/a.csv"), ("d/b_c.csv")] ("") none none)
        ("line") ("DET") true ({} : ChartOptions) := by
  refine ⟨?_, ?_, ?_⟩ <;> decide

/-- C7 (amended): in scenario B the classifier falls back to the single `File`
dimension whose labels are the files' base names; no line-style encoding is
added to subsequent chart declarations, but a color encoding bound to `File`
is (its cardinality is the number of distinct base names, 2 here). -/
theorem fallback_single_file_dimension_encodings :
    (classify [("d/a.csv"), ("d/b_c.csv")] ("") none none).pivotHeaders = [("File")] ∧
    (classify [("d/a.csv"), ("d/b_c.csv")] ("") none none).major.header = ("File") ∧
    (classify [("d/a.csv"), ("d/b_c.csv")] ("") none none).major.size = 2 ∧
    (classify [("d/a.csv"), ("d/b_c.csv")] ("") none none).pivotItems.getD 0 ∅ =
      {("a"), ("b_c")} ∧
    colourPart (classify [("d/a.csv"), ("d/b_c.csv")] ("") none none) =
      (", colour=factor(File)") ∧
    linetypePart (classify [("d/a.csv"), ("d/b_c.csv")] ("") none none) = ("") := by
  refine ⟨?_, ?_, ?_, ?_, ?_, ?_⟩ <;> decide

/-- Lexicographically sorting permuted input lists yields the same list. -/
theorem sortFilesList_perm_eq (l1 l2 : List String) (h : l1.Perm l2) :
    sortFilesList l1 = sortFilesList l2 :=
  List.eq_of_perm_of_sorted
    ((List.perm_insertionSort sortFiles l1).trans
      (h.trans (List.perm_insertionSort sortFiles l2).symm))
    (List.sorted_insertionSort sortFiles l1)
    (List.sorted_insertionSort sortFiles l2)

/-- C9: for non-empty input lists sharing a consistent token count, the whole
classification state is invariant under permutation of the input list, and
sorting before classifying is idempotent. -/
theorem classification_permutation_invariant
    (files1 files2 : List String) (smooth : String) (copt : Option ℚ)
    (nopt : Option Int) (H : ℕ)
    (hne : files1 ≠ [])
    (hcons : ∀ f ∈ files1, (getPivots f false).length = H)
    (hperm : files1.Perm files2) :
    classify files1 smooth copt nopt = classify files2 smooth copt nopt ∧
    classify (sortFilesList files1) smooth copt nopt = classify files1 smooth copt nopt := by
  constructor
  · unfold classify
    rw [sortFilesList_perm_eq files1 files2 hperm]
  · unfold classify
    rw [sortFilesList_perm_eq (sortFilesList files1) files1
      (List.perm_insertionSort sortFiles files1)]

/-- Witness for `classification_permutation_invariant` at a concrete input. -/
theorem classification_permutation_invariant_witness :
    classify [("B/b_1.csv"), ("A/a_2.csv")] ("") none none =
      classify [("A/a_2.csv"), ("B/b_1.csv")] ("") none none :=
  (classification_permutation_invariant
    [("B/b_1.csv"), ("A/a_2.csv")] [("A/a_2.csv"), ("B/b_1.csv")]
    ("") none none 2 (by decide) (by decide)
    (List.Perm.swap ("A/a_2.csv") ("B/b_1.csv") [])).1

/-- C8: the legend column count is the caller override when present, else the
major cardinality when it exceeds 1, else the minor cardinality when the minor
has a non-empty header, else the major cardinality. -/
theorem ncol_derivation (files : List String) (smooth : String)
    (copt : Option ℚ) (nopt : Option Int) :
    (classify files smooth copt nopt).ncol =
      nopt.getD
        (if 1 < (classify files smooth copt nopt).major.size then
          ((classify files smooth copt nopt).major.size : Int)
         else if (classify files smooth copt nopt).minor.header = ("") then
          ((classify files smooth copt nopt).major.size : Int)
         else ((classify files smooth copt nopt).minor.size : Int)) := rfl

end br
